import Mathlib

/-!
# Verification of the fire-esc quest/game state machine

Shallow embedding of the quest-progression core of the repository:

* `Quest`, the quest registry (`src/assets/scripts/quests/quests.ts`);
* the current `QuestManager` (`managers/QuestManager.ts`, the variant that
  deep-copies the registry: `JSON.parse(JSON.stringify(quests))`);
* the older `QuestManager` iteration (the variant that aliases the module
  registry and re-initialises every status at construction);
* the current `Game` orchestrator (`game.ts`, states `AWAITING_QUEST`,
  `PLAYING`, `SHOWING_INSTRUCTIONS`, `SHOWING_SUCCESS`), in particular
  `_updateQuestProgress`, the phone-call handlers and the quest timer;
* the older `Game` iteration whose `_updateQuestProgress` resolves the
  fire point by `quest.correctAnswer` instead of `quest.id`.

Machine floats of the source are modelled as `ℚ` (only `+ - * <` and a
monotone `sqrt` for the HUD are applied to them); JS object mutation is
modelled by explicit state passing.
-/

namespace FireEsc

/-- Quest status: `"locked" | "active" | "completed"` in `quests.ts`. -/
inductive Status where
  | locked
  | active
  | completed
deriving DecidableEq

/-- Quest trigger kind: `"phonecall" | "direct"` in `quests.ts`. -/
inductive Trigger where
  | phonecall
  | direct
deriving DecidableEq

/-- The `Quest` interface of `quests.ts`.  `trigger` and `caller` are
optional fields (`trigger?`, `caller?`); the current `game.ts` additionally
reads an optional `changeCameraTarget` field, absent from every registry
entry below. -/
structure Quest where
  id : Nat
  title : String
  riddle : String
  correctAnswer : Nat
  successMessage : String
  status : Status
  trigger : Option Trigger
  caller : Option String
  changeCameraTarget : Option String
deriving DecidableEq

/-- Registry entry 1 of `quests.ts`. -/
def quest1 : Quest :=
  { id := 1
    title := "The First Spark"
    riddle := "Το βράδυ ανάψαμε φωτιά\nΚαι τραγουδούσαμε γύρω τριγύρω:\nΦωτιά ωραία φωτιά μη λυπηθείς τα κούτσουρα\nΦωτιά ωραία φωτιά μη φτάσεις ως τη στάχτη\nΦωτιά ωραία φωτιά καίγε μας\nλέγε μας τη ζωή."
    correctAnswer := 6
    successMessage := "Τα πάρκα της πόλης θα πρέπει να είναι καθαρισμένα από πεσμένα κούτσουρα, κλαδιά και ξερά φύλλα! Ευτυχώς, έσβησες άμεσα την πρώτη φωτιά!"
    status := Status.locked
    trigger := some Trigger.phonecall
    caller := some "Βαθιά Φωνή"
    changeCameraTarget := none }

/-- Registry entry 2 of `quests.ts`. -/
def quest2 : Quest :=
  { id := 2
    title := "The Red Herring"
    riddle := "Υπάρχουν πολλά κόκκινα που κινούνται παντού, αλλά εσύ ψάχνεις αυτό που βρίσκεται πιο ανατολικά από τα υπόλοιπα."
    correctAnswer := 10
    successMessage := "Εξαιτίας της διαρροής βενζίνης, το αυτοκίνητο πήρε φωτιά! Άλλη μια εστία φωτιάς που κατάφερες να σβήσεις!"
    status := Status.locked
    trigger := some Trigger.direct
    caller := none
    changeCameraTarget := none }

/-- Registry entry 3 of `quests.ts`. -/
def quest3 : Quest :=
  { id := 3
    title := "A Burning Problem"
    riddle := "Κάνει ζημιά στην υγεία του ανθρώπου και όχι μόνο. Αν το πετάξει κάποιος εκεί μέσα, μπορεί να κάψει ολόκληρη την πόλη!"
    correctAnswer := 8
    successMessage := "Κάποιος/α ασυνείδητος/η πέταξε μια γόπα από τσιγάρο μέσα στον σκουπιδοτενεκέ. Ευτυχώς, πρόλαβες τα χειρότερα!"
    status := Status.locked
    trigger := some Trigger.phonecall
    caller := none
    changeCameraTarget := none }

/-- Registry entry 4 of `quests.ts`. -/
def quest4 : Quest :=
  { id := 4
    title := "Unlucky Number"
    riddle := "Μην ποντάρεις ποτέ στο νούμερο 15! Θα φέρει την καταστροφή στην πόλη!"
    correctAnswer := 5
    successMessage := "Έφτασες γρήγορα και έσωσες τους ανθρώπους που κουνούσαν μαντίλια στα παράθυρα της πολυκατοικίας. Η φωτιά είχε ξεσπάσει από μια ηλεκτρική κουζίνα που ο ιδιοκτήτης ξέχασε αναμμένη."
    status := Status.locked
    trigger := some Trigger.direct
    caller := none
    changeCameraTarget := none }

/-- Registry entry 5 of `quests.ts`. -/
def quest5 : Quest :=
  { id := 5
    title := "Race Against Time"
    riddle := "Η ώρα πήγε 5… Μήπως άργησες να προλάβεις την τελευταία εστία φωτιάς; Τρέξε για να δραπετεύσεις από τη φωτιά!"
    correctAnswer := 9
    successMessage := "Μπράβο σου! Κατάφερες να σβήσεις μέχρι και την τελευταία εστία φωτιάς που είχε ξεσπάσει στο Δημαρχείο. Η φωτιά ξεκίνησε από ένα βραχυκύκλωμα στο αρχείο του Δημαρχείου. Γλίτωσες την πόλη από αστική πυρκαγιά! Η εκπαίδευσή σου άξιζε τον κόπο!!!!"
    status := Status.locked
    trigger := some Trigger.direct
    caller := none
    changeCameraTarget := none }

/-- `export const quests: Quest[]` of `quests.ts`: the module-level quest
registry template. -/
def registryQuests : List Quest := [quest1, quest2, quest3, quest4, quest5]

/-! ## The current `QuestManager` (`managers/QuestManager.ts`)

The manager's whole mutable state is its `_quests` array, modelled as a
`List Quest`; each operation returns the new array (and its return value
where it has one). -/

/-- `getQuestById`: `this._quests.find((q) => q.id === id)`. -/
def getQuestById (id : Nat) (qs : List Quest) : Option Quest :=
  qs.find? (fun q => q.id == id)

/-- `getCurrentQuest`: `this._quests.find((q) => q.status === "active")`. -/
def getCurrentQuest (qs : List Quest) : Option Quest :=
  qs.find? (fun q => q.status == Status.active)

/-- `activateQuestById(id)`: looks up the first quest with the given id and
sets its status to `active` if and only if it is currently `locked`
(mutation of the found object is modelled by rebuilding the list at the
found position). -/
def activateQuestById (id : Nat) : List Quest → List Quest
  | [] => []
  | q :: rest =>
    if q.id == id then
      if q.status == Status.locked then
        { q with status := Status.active } :: rest
      else
        q :: rest
    else
      q :: activateQuestById id rest

/-- The mutation `currentQuest.status = "completed"` performed by
`completeCurrentQuestAndGetNext`: the object returned by
`find((q) => q.status === "active")` is the first active quest. -/
def completeFirstActive : List Quest → List Quest
  | [] => []
  | q :: rest =>
    if q.status == Status.active then
      { q with status := Status.completed } :: rest
    else
      q :: completeFirstActive rest

/-- `completeCurrentQuestAndGetNext()`: if there is no active quest it
returns `null` and changes nothing; otherwise it marks the current quest
`completed`, then returns `this._quests[nextQuestIndex]` where
`nextQuestIndex = findIndex((q) => q.id === currentQuest.id) + 1`, or
`null` when that index is out of range (`List.getElem?` returns `none`
exactly when `nextQuestIndex < length` fails; the `-1` branch of
`findIndex` cannot occur, because the current quest itself is in the array
with its id intact).  The pair is
(returned quest, `_quests` array after the call). -/
def completeCurrentQuestAndGetNext (qs : List Quest) : Option Quest × List Quest :=
  match getCurrentQuest qs with
  | none => (none, qs)
  | some cur =>
    let qs2 := completeFirstActive qs
    let nextIdx := qs2.findIdx (fun q => q.id == cur.id) + 1
    (qs2[nextIdx]?, qs2)

/-- The constructor of the current `QuestManager`:
`this._quests = JSON.parse(JSON.stringify(quests))` (a deep copy of the
registry value), then the first quest is activated only when it has no
`trigger` (`!this._quests[0].trigger`). -/
def mkQuestManager (registry : List Quest) : List Quest :=
  match registry with
  | [] => []
  | q :: rest =>
    if q.trigger.isNone then { q with status := Status.active } :: rest
    else q :: rest

/-! ## Status-shape invariant

`shape qs = true` says the statuses, in registry order, are a contiguous
run of `completed`, then optionally one `active`, then only `locked`. -/

/-- Every quest in the list is `locked`. -/
def allLocked : List Quest → Bool
  | [] => true
  | q :: rest => q.status == Status.locked && allLocked rest

/-- Statuses form `completed`* then optionally one `active` then `locked`*:
after the leading run of `completed`, the head may be `active` or `locked`,
and everything after that head must be `locked`. -/
def shape : List Quest → Bool
  | [] => true
  | q :: rest =>
    if q.status == Status.completed then shape rest else allLocked rest

/-- Number of quests with status `active`. -/
def activeCount (qs : List Quest) : Nat :=
  qs.countP (fun q => q.status == Status.active)

/-- An operation of the current `QuestManager`'s mutating interface. -/
inductive QmOp where
  | activate (id : Nat)
  | complete
deriving DecidableEq

/-- Effect of one `QuestManager` operation on the `_quests` array. -/
def applyOp (qs : List Quest) : QmOp → List Quest
  | QmOp.activate id => activateQuestById id qs
  | QmOp.complete => (completeCurrentQuestAndGetNext qs).2

/-- Effect of a sequence of `QuestManager` operations. -/
def runOps (qs : List Quest) : List QmOp → List Quest
  | [] => qs
  | op :: rest => runOps (applyOp qs op) rest

/-- The first quest whose status is not `completed` (under `shape` with no
active quest, this is the next quest the orchestrator would start). -/
def firstUncompleted (qs : List Quest) : Option Quest :=
  qs.find? (fun q => q.status != Status.completed)

/-- `id` is the id of the first not-yet-completed quest. -/
def nextTargetIs (qs : List Quest) (id : Nat) : Bool :=
  match firstUncompleted qs with
  | some q => q.id == id
  | none => false

/-- The orchestrator's calling discipline for a single operation:
`_handleInstructionsClosed` only activates the pending quest, which is the
first quest of the registry at startup or the quest returned by
`completeCurrentQuestAndGetNext`, and only while no quest is active;
`complete` is unrestricted. -/
def disciplinedOp (qs : List Quest) : QmOp → Bool
  | QmOp.activate id => (getCurrentQuest qs).isNone && nextTargetIs qs id
  | QmOp.complete => true

/-- The discipline, along a whole operation sequence. -/
def disciplinedRun : List Quest → List QmOp → Bool
  | _, [] => true
  | qs, op :: rest => disciplinedOp qs op && disciplinedRun (applyOp qs op) rest

/-! ## The older `QuestManager` iteration

Its constructor does not copy: `this.quests = quests` aliases the
module-level registry, and then `this.quests.forEach((quest, index) =>
quest.status = index === 0 ? "active" : "locked")` rewrites every status in
place.  The model returns the pair (instance array, module registry after
construction); because of the alias the two components are the same
mutated list. -/
def construct007 (registry : List Quest) : List Quest × List Quest :=
  let shared :=
    match registry with
    | [] => []
    | q :: rest =>
      { q with status := Status.active } ::
        rest.map (fun r => { r with status := Status.locked })
  (shared, shared)

/-! ## Module registry framing for the current `QuestManager`

A `Session` is the module-level registry together with one live
`QuestManager` instance.  The current constructor deep-copies
(`JSON.parse(JSON.stringify(quests))`), so the instance state is a
separate value and every operation rewrites only the instance. -/

/-- Module registry plus the `_quests` state of one current-`QuestManager`
instance. -/
structure Session where
  moduleRegistry : List Quest
  instanceQuests : List Quest
deriving DecidableEq

/-- Constructing a current `QuestManager`: the deep copy leaves the module
registry untouched. -/
def mkSession (registry : List Quest) : Session :=
  { moduleRegistry := registry, instanceQuests := mkQuestManager registry }

/-- One instance operation inside a session: only the instance copy of the
quests changes. -/
def sessionStep (s : Session) (op : QmOp) : Session :=
  { s with instanceQuests := applyOp s.instanceQuests op }

/-- A sequence of instance operations inside a session. -/
def runSession (s : Session) : List QmOp → Session
  | [] => s
  | op :: rest => runSession (sessionStep s op) rest

/-! ## The current `Game` orchestrator (`game.ts`)

World positions (`Vector3`) are modelled over `ℚ`.  The orchestrator's
fields that the timer, modal and quest logic read or write are carried in
`GameS`; fire-and-forget audio cues and the HUD timer text are not state
and are omitted.  `setTimeout` continuations (`_startQuestTimer`,
`window.location.reload`, the cyclist cinematic) are modelled as the
separate step functions below, never interleaved implicitly. -/

/-- `Vector3`, restricted to the exact arithmetic the quest logic uses. -/
structure Vec3 where
  x : ℚ
  y : ℚ
  z : ℚ
deriving DecidableEq

/-- `Vector3.DistanceSquared`. -/
def distSq (a b : Vec3) : ℚ :=
  (a.x - b.x) ^ 2 + (a.y - b.y) ^ 2 + (a.z - b.z) ^ 2

/-- The `GameState` union type of the current `game.ts`. -/
inductive GState where
  | AWAITING_QUEST
  | PLAYING
  | SHOWING_INSTRUCTIONS
  | SHOWING_SUCCESS
deriving DecidableEq

/-- Orchestrator state of the current `game.ts`.

* `quests` is `_questManager._quests`;
* `firePoints` is the world's fire-point registry
  (`getFirePointPosition : id → position | null`), immutable after load;
* `visibleFire` models `hideAllFires()` + `showFireAtPoint(id)`:
  the at-most-one currently shown fire effect;
* `lastModal` is the (speaker, text) of the most recent
  `showInstructionModal` call;
* `phoneModalCaller` is `some c` while the phone-call prompt for caller `c`
  is on screen;
* `hudDistSq` records `updateDistance`: the code passes
  `Math.sqrt(distanceSquared)`, `-1` as the reached sentinel, or `null`;
  since `sqrt` is injective on nonnegatives we record the squared distance
  itself, `-1`, or `none`;
* `cinematicQuest` is `some q` while the cyclist cutscene of
  `_showQuestCompleteWithCinematic` has a deferred success modal for `q`. -/
structure GameS where
  gameState : GState
  quests : List Quest
  pendingQuest : Option Quest
  playerPos : Vec3
  firePoints : Nat → Option Vec3
  cachedQuestId : Option Nat
  cachedObjectivePos : Option Vec3
  visibleFire : Option Nat
  ringtonePlaying : Bool
  phoneModalCaller : Option String
  lastModal : Option (String × String)
  hudDistSq : Option ℚ
  timerRunning : Bool
  isInCutscene : Bool
  cyclistCameraPresent : Bool
  cyclistMeshPresent : Bool
  cinematicQuest : Option Quest

/-- `_startQuest(quest)`: records the pending quest, enters
`SHOWING_INSTRUCTIONS`, and branches on the trigger: `phonecall` starts the
ringtone and shows the phone-call prompt with `quest.caller ?? "Unknown"`;
anything else shows the riddle modal immediately. -/
def startQuest (q : Quest) (s : GameS) : GameS :=
  let s1 := { s with pendingQuest := some q, gameState := GState.SHOWING_INSTRUCTIONS }
  if q.trigger == some Trigger.phonecall then
    { s1 with ringtonePlaying := true,
              phoneModalCaller := some (q.caller.getD "Unknown") }
  else
    { s1 with lastModal := some ("New Objective", q.riddle) }

/-- `_onAnswerCall`: stops the ringtone, hides the phone prompt, and shows
the riddle modal of the pending quest (speaker `quest.caller ?? "Objective"`). -/
def onAnswerCall (s : GameS) : GameS :=
  let s1 := { s with ringtonePlaying := false, phoneModalCaller := none }
  match s1.pendingQuest with
  | some q => { s1 with lastModal := some (q.caller.getD "Objective", q.riddle) }
  | none => s1

/-- `_onPhoneModalClosed`: the prompt was dismissed without answering (the
DOM modal is already gone, hence `phoneModalCaller := none`); the ringtone
stops, and if a quest is still pending in `SHOWING_INSTRUCTIONS` its riddle
modal is shown anyway — otherwise the state falls through to `PLAYING`. -/
def onPhoneModalClosed (s : GameS) : GameS :=
  let s1 := { s with ringtonePlaying := false, phoneModalCaller := none }
  if s1.gameState == GState.SHOWING_INSTRUCTIONS then
    match s1.pendingQuest with
    | some q => { s1 with lastModal := some (q.caller.getD "Objective", q.riddle) }
    | none => { s1 with gameState := GState.PLAYING }
  else
    { s1 with gameState := GState.PLAYING }

/-- `_handleInstructionsClosed`: activates the pending quest in the
`QuestManager`, moves the fire effect to it (`_onQuestAdvanced`: hide all,
then show at `quest.id`), clears the pending reference, (re)starts the
quest timer, and unconditionally enters `PLAYING`. -/
def handleInstructionsClosed (s : GameS) : GameS :=
  let s1 :=
    match s.pendingQuest with
    | some q =>
      { s with quests := activateQuestById q.id s.quests,
               visibleFire := some q.id,
               pendingQuest := none,
               timerRunning := true }
    | none => s
  { s1 with gameState := GState.PLAYING }

/-- `_showGameOver`: terminal branch of `_handleQuestSuccess`. -/
def showGameOver (s : GameS) : GameS :=
  { s with gameState := GState.AWAITING_QUEST,
           lastModal := some ("Game Over",
             "Congratulations! You have saved the city from the fire!") }

/-- `_handleQuestSuccess`: stops the timer, completes the current quest,
and either starts the next quest or shows the game-over modal. -/
def handleQuestSuccess (s : GameS) : GameS :=
  let s1 := { s with timerRunning := false }
  match completeCurrentQuestAndGetNext s1.quests with
  | (some nq, qs2) => startQuest nq { s1 with quests := qs2 }
  | (none, qs2) => showGameOver { s1 with quests := qs2 }

/-- `_onInstructionModalClosed`: dispatches on the game state. -/
def onInstructionModalClosed (s : GameS) : GameS :=
  if s.gameState == GState.SHOWING_INSTRUCTIONS then
    handleInstructionsClosed s
  else if s.gameState == GState.SHOWING_SUCCESS then
    handleQuestSuccess s
  else
    s

/-- `_completeActiveQuest(quest)`: enters `SHOWING_SUCCESS`, plays the
success cue, sets the HUD distance to the `-1` sentinel, and shows the
success modal — immediately, unless the quest requests the cyclist
cinematic and both the cyclist camera and the `cyclistRoot` mesh exist, in
which case the modal is deferred to the cinematic timeout. -/
def completeActiveQuest (q : Quest) (s : GameS) : GameS :=
  let s1 := { s with gameState := GState.SHOWING_SUCCESS, hudDistSq := some (-1) }
  if q.changeCameraTarget == some "cyclist" && s1.cyclistCameraPresent then
    if s1.cyclistMeshPresent then
      { s1 with isInCutscene := true, cinematicQuest := some q }
    else
      { s1 with lastModal := some ("Quest Complete!", q.successMessage) }
  else
    { s1 with lastModal := some ("Quest Complete!", q.successMessage) }

/-- `_updateQuestProgress`, the per-frame objective check: a no-op unless
`PLAYING`; with no active quest it clears the HUD distance and the quest
cache; otherwise it refreshes the cached objective position via
`_world.getFirePointPosition(currentQuest.id)` when the cached quest id
differs, bails out if no fire point is known, and finally compares the
squared player–target distance against the literal `25`
(`if (distanceSquared < 25)`): strictly below completes the quest,
otherwise the HUD shows the distance. -/
def updateQuestProgress (s : GameS) : GameS :=
  if s.gameState != GState.PLAYING then s
  else
    match getCurrentQuest s.quests with
    | none =>
      { s with hudDistSq := none, cachedQuestId := none, cachedObjectivePos := none }
    | some q =>
      let s1 :=
        if s.cachedQuestId != some q.id then
          { s with cachedQuestId := some q.id,
                   cachedObjectivePos := s.firePoints q.id }
        else s
      match s1.cachedObjectivePos with
      | none => s1
      | some target =>
        let d2 := distSq s1.playerPos target
        if d2 < 25 then completeActiveQuest q s1
        else { s1 with hudDistSq := some d2 }

/-- `_onQuestTimerExpired`: the countdown hit zero; the state becomes
`AWAITING_QUEST` and the time-out modal is shown.  (The
`window.location.reload()` scheduled 3000 ms later tears the session down
and is outside the model.) -/
def onQuestTimerExpired (s : GameS) : GameS :=
  { s with gameState := GState.AWAITING_QUEST,
           lastModal := some ("Time's Up!",
             "You ran out of time! Click 'Try Again' to restart.") }

/-- One render-loop frame as seen by the quest logic: the player has moved
to `p` (`_player.update()`), then `_updateQuestProgress()` runs. -/
def frameStep (s : GameS) (p : Vec3) : GameS :=
  updateQuestProgress { s with playerPos := p }

/-! ## The older `Game` iteration (the `game.ts` with states
`"playing" | "in_modal"`)

Only the pieces its per-frame check needs: its `_updateQuestProgress`
resolves the fire point with `currentQuest.correctAnswer` as the key, and
its `completeActiveQuest` enters `"in_modal"`, advances the
`QuestManager`, and shows the success modal (the listener-swap plumbing
around the success modal is UI wiring and not modelled). -/

/-- The `_gameState` union type of the older `game.ts`. -/
inductive OldGState where
  | playing
  | in_modal
deriving DecidableEq

/-- Orchestrator state of the older `game.ts` (fields its per-frame check
touches). -/
structure OldGameS where
  gameState : OldGState
  quests : List Quest
  playerPos : Vec3
  firePoints : Nat → Option Vec3
  lastModal : Option (String × String)
  hudDistSq : Option ℚ

/-- The older `completeActiveQuest`: `"in_modal"`, success cue, `-1` HUD
sentinel, `completeCurrentQuestAndGetNext`, success modal. -/
def completeActiveQuestV1 (q : Quest) (s : OldGameS) : OldGameS :=
  { s with gameState := OldGState.in_modal,
           hudDistSq := some (-1),
           quests := (completeCurrentQuestAndGetNext s.quests).2,
           lastModal := some ("Quest Complete!", q.successMessage) }

/-- The older `_updateQuestProgress`: identical structure to the current
one but without the cache, and — decisively — it calls
`_world.getFirePointPosition(currentQuest.correctAnswer)`: the lookup key
into the fire-point registry is the quest's `correctAnswer`, not its id. -/
def updateQuestProgressV1 (s : OldGameS) : OldGameS :=
  if s.gameState != OldGState.playing then s
  else
    match getCurrentQuest s.quests with
    | none => { s with hudDistSq := none }
    | some q =>
      match s.firePoints q.correctAnswer with
      | none => s
      | some target =>
        let d2 := distSq s.playerPos target
        if d2 < 25 then completeActiveQuestV1 q s
        else { s with hudDistSq := some d2 }

/-! ## Helper lemmas about the status shape -/

theorem allLocked_cons {q : Quest} {rest : List Quest} :
    allLocked (q :: rest) = true ↔
      q.status = Status.locked ∧ allLocked rest = true := by
  simp [allLocked]

theorem getCurrentQuest_cons_active {q : Quest} {rest : List Quest}
    (h : q.status = Status.active) : getCurrentQuest (q :: rest) = some q := by
  unfold getCurrentQuest
  rw [List.find?_cons_of_pos _ (by simp [h])]

theorem getCurrentQuest_cons_inactive {q : Quest} {rest : List Quest}
    (h : q.status ≠ Status.active) :
    getCurrentQuest (q :: rest) = getCurrentQuest rest := by
  unfold getCurrentQuest
  rw [List.find?_cons_of_neg _ (by simp [h])]

theorem firstUncompleted_cons_completed {q : Quest} {rest : List Quest}
    (h : q.status = Status.completed) :
    firstUncompleted (q :: rest) = firstUncompleted rest := by
  unfold firstUncompleted
  rw [List.find?_cons_of_neg _ (by simp [h])]

theorem firstUncompleted_cons_uncompleted {q : Quest} {rest : List Quest}
    (h : q.status ≠ Status.completed) :
    firstUncompleted (q :: rest) = some q := by
  unfold firstUncompleted
  rw [List.find?_cons_of_pos _ (by simp [h])]

theorem shape_cons_completed {q : Quest} {rest : List Quest}
    (h : q.status = Status.completed) :
    shape (q :: rest) = shape rest := by
  simp [shape, h]

theorem shape_cons_uncompleted {q : Quest} {rest : List Quest}
    (h : q.status ≠ Status.completed) :
    shape (q :: rest) = allLocked rest := by
  simp [shape, h]

theorem activate_cons_miss {q : Quest} {rest : List Quest} {id : Nat}
    (h : q.id ≠ id) :
    activateQuestById id (q :: rest) = q :: activateQuestById id rest := by
  simp [activateQuestById, h]

theorem activate_cons_hit_locked {q : Quest} {rest : List Quest} {id : Nat}
    (h : q.id = id) (hl : q.status = Status.locked) :
    activateQuestById id (q :: rest) = { q with status := Status.active } :: rest := by
  simp [activateQuestById, h, hl]

theorem activate_cons_hit_unlocked {q : Quest} {rest : List Quest} {id : Nat}
    (h : q.id = id) (hl : q.status ≠ Status.locked) :
    activateQuestById id (q :: rest) = q :: rest := by
  simp [activateQuestById, h, hl]

theorem allLocked_shape {qs : List Quest} (h : allLocked qs = true) :
    shape qs = true := by
  induction qs with
  | nil => rfl
  | cons q rest ih =>
    rcases allLocked_cons.mp h with ⟨h1, h2⟩
    rw [shape_cons_uncompleted (by simp [h1])]
    exact h2

theorem allLocked_noActive {qs : List Quest} (h : allLocked qs = true) :
    getCurrentQuest qs = none := by
  induction qs with
  | nil => rfl
  | cons q rest ih =>
    rcases allLocked_cons.mp h with ⟨h1, h2⟩
    rw [getCurrentQuest_cons_inactive (by simp [h1])]
    exact ih h2

theorem activeCount_cons {q : Quest} {rest : List Quest} :
    activeCount (q :: rest) =
      activeCount rest + (if q.status = Status.active then 1 else 0) := by
  simp [activeCount, List.countP_cons]

theorem allLocked_activeCount {qs : List Quest} (h : allLocked qs = true) :
    activeCount qs = 0 := by
  induction qs with
  | nil => rfl
  | cons q rest ih =>
    rcases allLocked_cons.mp h with ⟨h1, h2⟩
    rw [activeCount_cons, ih h2, if_neg (by simp [h1])]

theorem shape_activeCount {qs : List Quest} (h : shape qs = true) :
    activeCount qs ≤ 1 := by
  induction qs with
  | nil => simp [activeCount]
  | cons q rest ih =>
    by_cases hc : q.status = Status.completed
    · rw [shape_cons_completed hc] at h
      rw [activeCount_cons, if_neg (by simp [hc])]
      exact ih h
    · rw [shape_cons_uncompleted hc] at h
      rw [activeCount_cons, allLocked_activeCount h]
      split <;> omega

theorem completeFirstActive_of_allLocked {qs : List Quest}
    (h : allLocked qs = true) : completeFirstActive qs = qs := by
  induction qs with
  | nil => rfl
  | cons q rest ih =>
    rcases allLocked_cons.mp h with ⟨h1, h2⟩
    simp [completeFirstActive, h1, ih h2]

theorem completeFirstActive_shape {qs : List Quest} (h : shape qs = true) :
    shape (completeFirstActive qs) = true := by
  induction qs with
  | nil => rfl
  | cons q rest ih =>
    cases hq : q.status with
    | active =>
      rw [shape_cons_uncompleted (by simp [hq])] at h
      have : completeFirstActive (q :: rest) =
          { q with status := Status.completed } :: rest := by
        simp [completeFirstActive, hq]
      rw [this, shape_cons_completed (by simp)]
      exact allLocked_shape h
    | completed =>
      rw [shape_cons_completed hq] at h
      have : completeFirstActive (q :: rest) = q :: completeFirstActive rest := by
        simp [completeFirstActive, hq]
      rw [this, shape_cons_completed hq]
      exact ih h
    | locked =>
      rw [shape_cons_uncompleted (by simp [hq])] at h
      have : completeFirstActive (q :: rest) = q :: completeFirstActive rest := by
        simp [completeFirstActive, hq]
      rw [this, completeFirstActive_of_allLocked h,
        shape_cons_uncompleted (by simp [hq])]
      exact h

theorem complete_shape {qs : List Quest} (h : shape qs = true) :
    shape (completeCurrentQuestAndGetNext qs).2 = true := by
  unfold completeCurrentQuestAndGetNext
  cases hcur : getCurrentQuest qs with
  | none => simpa using h
  | some cur => simpa using completeFirstActive_shape h

theorem activate_shape : ∀ {qs : List Quest} {id : Nat}, shape qs = true →
    getCurrentQuest qs = none → nextTargetIs qs id = true →
    shape (activateQuestById id qs) = true := by
  intro qs
  induction qs with
  | nil => intro id _ _ h; simp [nextTargetIs, firstUncompleted] at h
  | cons q rest ih =>
    intro id hs hcur hnt
    cases hq : q.status with
    | active =>
      rw [getCurrentQuest_cons_active hq] at hcur
      cases hcur
    | completed =>
      rw [shape_cons_completed hq] at hs
      rw [getCurrentQuest_cons_inactive (by simp [hq])] at hcur
      rw [nextTargetIs, firstUncompleted_cons_completed hq] at hnt
      by_cases hid : q.id = id
      · rw [activate_cons_hit_unlocked hid (by simp [hq]),
          shape_cons_completed hq]
        exact hs
      · rw [activate_cons_miss hid, shape_cons_completed hq]
        exact ih hs hcur hnt
    | locked =>
      rw [shape_cons_uncompleted (by simp [hq])] at hs
      have hfu : firstUncompleted (q :: rest) = some q :=
        firstUncompleted_cons_uncompleted (by simp [hq])
      have hid : q.id = id := by simpa [nextTargetIs, hfu] using hnt
      rw [activate_cons_hit_locked hid hq, shape_cons_uncompleted (by simp)]
      exact hs

theorem disciplined_shape : ∀ (ops : List QmOp) {qs : List Quest},
    shape qs = true → disciplinedRun qs ops = true →
    shape (runOps qs ops) = true
  | [], _, h, _ => h
  | op :: rest, qs, h, hd => by
    simp only [disciplinedRun, Bool.and_eq_true] at hd
    refine disciplined_shape rest ?_ hd.2
    cases op with
    | complete => exact complete_shape h
    | activate id =>
      have h1 := hd.1
      simp only [disciplinedOp, Bool.and_eq_true, Option.isNone_iff_eq_none] at h1
      exact activate_shape h h1.1 h1.2

/-! ## Helper lemmas about `activateQuestById` -/

theorem getQuestById_cons_hit {q : Quest} {rest : List Quest} {id : Nat}
    (h : q.id = id) : getQuestById id (q :: rest) = some q := by
  unfold getQuestById
  rw [List.find?_cons_of_pos _ (by simp [h])]

theorem getQuestById_cons_miss {q : Quest} {rest : List Quest} {id : Nat}
    (h : q.id ≠ id) : getQuestById id (q :: rest) = getQuestById id rest := by
  unfold getQuestById
  rw [List.find?_cons_of_neg _ (by simp [h])]

theorem activate_idem {id : Nat} : ∀ {qs : List Quest},
    activateQuestById id (activateQuestById id qs) = activateQuestById id qs
  | [] => rfl
  | q :: rest => by
    by_cases hid : q.id = id
    · by_cases hl : q.status = Status.locked
      · rw [activate_cons_hit_locked hid hl,
          activate_cons_hit_unlocked (by simpa using hid) (by simp)]
      · rw [activate_cons_hit_unlocked hid hl,
          activate_cons_hit_unlocked hid hl]
    · rw [activate_cons_miss hid, activate_cons_miss hid,
        @activate_idem id rest]

theorem activate_noop_of_absent {id : Nat} : ∀ {qs : List Quest},
    getQuestById id qs = none → activateQuestById id qs = qs
  | [], _ => rfl
  | q :: rest, h => by
    by_cases hid : q.id = id
    · rw [getQuestById_cons_hit hid] at h
      cases h
    · rw [getQuestById_cons_miss hid] at h
      rw [activate_cons_miss hid, activate_noop_of_absent h]

theorem activate_noop_of_not_locked {id : Nat} : ∀ {qs : List Quest} {q : Quest},
    getQuestById id qs = some q → q.status ≠ Status.locked →
    activateQuestById id qs = qs
  | [], _, h, _ => by cases h
  | q0 :: rest, q, h, hl => by
    by_cases hid : q0.id = id
    · rw [getQuestById_cons_hit hid] at h
      cases h
      exact activate_cons_hit_unlocked hid hl
    · rw [getQuestById_cons_miss hid] at h
      rw [activate_cons_miss hid, activate_noop_of_not_locked h hl]

theorem activate_locked_activates {id : Nat} : ∀ {qs : List Quest} {q : Quest},
    getQuestById id qs = some q → q.status = Status.locked →
    getQuestById id (activateQuestById id qs) =
      some { q with status := Status.active }
  | [], _, h, _ => by cases h
  | q0 :: rest, q, h, hl => by
    by_cases hid : q0.id = id
    · rw [getQuestById_cons_hit hid] at h
      cases h
      rw [activate_cons_hit_locked hid hl,
        getQuestById_cons_hit (by simpa using hid)]
    · rw [getQuestById_cons_miss hid] at h
      rw [activate_cons_miss hid, getQuestById_cons_miss hid,
        activate_locked_activates h hl]

/-! ## Claim theorems: `QuestManager` -/

/-- C1 counterexample: the claim quantifies over *every* sequence of
`QuestManager` operations, but `activateQuestById` only guards against
re-activating the *same* quest.  On a fresh manager (all five registry
quests `locked`), activating quest 1 and then quest 2 yields two `active`
quests at once and breaks the completed/active/locked ordering, so both
halves of the claimed invariant fail. -/
theorem questShape_arbitraryOps_cex :
    ¬ (activeCount (runOps (mkQuestManager registryQuests)
          [QmOp.activate 1, QmOp.activate 2]) ≤ 1 ∧
        shape (runOps (mkQuestManager registryQuests)
          [QmOp.activate 1, QmOp.activate 2]) = true) := by
  decide

/-- C1 (amended): for every sequence of `QuestManager` operations applied
to a freshly constructed manager in which each `activateQuestById id` call
happens while no quest is active and targets the first not-yet-completed
quest — exactly the call pattern of the `Game` orchestrator — at most one
quest is ever `active`, and in registry order the statuses are a
contiguous run of `completed`, then optionally one `active`, then only
`locked`. -/
theorem questShape_disciplinedOps (ops : List QmOp)
    (h : disciplinedRun (mkQuestManager registryQuests) ops = true) :
    activeCount (runOps (mkQuestManager registryQuests) ops) ≤ 1 ∧
    shape (runOps (mkQuestManager registryQuests) ops) = true := by
  have hs : shape (mkQuestManager registryQuests) = true := by decide
  have h2 := disciplined_shape ops hs h
  exact ⟨shape_activeCount h2, h2⟩

/-- Witness for C1 (amended) at the concrete operation sequence
activate 1, complete, activate 2. -/
theorem questShape_disciplinedOps_witness :
    disciplinedRun (mkQuestManager registryQuests)
      [QmOp.activate 1, QmOp.complete, QmOp.activate 2] = true ∧
    (activeCount (runOps (mkQuestManager registryQuests)
        [QmOp.activate 1, QmOp.complete, QmOp.activate 2]) ≤ 1 ∧
      shape (runOps (mkQuestManager registryQuests)
        [QmOp.activate 1, QmOp.complete, QmOp.activate 2]) = true) :=
  ⟨by decide, questShape_disciplinedOps _ (by decide)⟩

/-- C3: `activateQuestById` is idempotent, is a no-op (never an error) when
the id is absent or the quest is not `locked`, and moves a `locked` quest
to `active`. -/
theorem activateQuestById_spec (id : Nat) (qs : List Quest) :
    activateQuestById id (activateQuestById id qs) = activateQuestById id qs ∧
    (getQuestById id qs = none → activateQuestById id qs = qs) ∧
    (∀ q, getQuestById id qs = some q → q.status ≠ Status.locked →
      activateQuestById id qs = qs) ∧
    (∀ q, getQuestById id qs = some q → q.status = Status.locked →
      getQuestById id (activateQuestById id qs) =
        some { q with status := Status.active }) :=
  ⟨activate_idem,
   fun h => activate_noop_of_absent h,
   fun _ h hl => activate_noop_of_not_locked h hl,
   fun _ h hl => activate_locked_activates h hl⟩

set_option maxRecDepth 10000 in
/-- Witness for C3 at quest id 1 of the registry: idempotence, and the
locked quest 1 becomes active. -/
theorem activateQuestById_spec_witness :
    activateQuestById 1 (activateQuestById 1 registryQuests) =
      activateQuestById 1 registryQuests ∧
    getQuestById 1 (activateQuestById 1 registryQuests) =
      some { quest1 with status := Status.active } :=
  ⟨(activateQuestById_spec 1 registryQuests).1,
   (activateQuestById_spec 1 registryQuests).2.2.2 quest1 (by decide) (by decide)⟩

/-- C4: with no active quest, `completeCurrentQuestAndGetNext` returns
`null` and leaves every quest untouched (the function is total, so no
exception is possible). -/
theorem completeCurrent_noActive (qs : List Quest)
    (h : getCurrentQuest qs = none) :
    completeCurrentQuestAndGetNext qs = (none, qs) := by
  unfold completeCurrentQuestAndGetNext
  rw [h]

/-- Witness for C4 on the fresh registry, where every quest is locked. -/
theorem completeCurrent_noActive_witness :
    getCurrentQuest registryQuests = none ∧
    completeCurrentQuestAndGetNext registryQuests = (none, registryQuests) :=
  ⟨by decide, completeCurrent_noActive registryQuests (by decide)⟩

/-- C5 counterexample: the repository's older `QuestManager` iteration
does *not* deep-copy — its constructor aliases the module registry and
rewrites every status in place, so merely constructing an instance mutates
the module-level template (quest 1 flips from `locked` to `active`), and a
fresh instance does not start from the pristine template statuses. -/
theorem registryMutation_cex :
    ((construct007 registryQuests).2).map Quest.status ≠
      registryQuests.map Quest.status := by
  decide

/-- C5 (amended): the *current* `QuestManager`
(`managers/QuestManager.ts`) deep-copies the registry at construction
(`JSON.parse(JSON.stringify(quests))`), so no sequence of its operations
ever changes the module-level registry, and a second instance constructed
afterwards behaves exactly like one constructed from the pristine
template under every operation sequence. -/
theorem mkQuestManager_deepCopy_frame (registry : List Quest)
    (ops opsB : List QmOp) :
    (runSession (mkSession registry) ops).moduleRegistry = registry ∧
    (runSession (mkSession
        ((runSession (mkSession registry) ops).moduleRegistry)) opsB).instanceQuests =
      (runSession (mkSession registry) opsB).instanceQuests := by
  have hreg : ∀ (s : Session) (l : List QmOp),
      (runSession s l).moduleRegistry = s.moduleRegistry := by
    intro s l
    induction l generalizing s with
    | nil => rfl
    | cons op rest ih => simpa [runSession, sessionStep] using ih (sessionStep s op)
  refine ⟨hreg (mkSession registry) ops, ?_⟩
  rw [hreg (mkSession registry) ops]
  rfl

/-- C6 counterexample: in the older `QuestManager` iteration the first
quest of the registry carries a `phonecall` trigger and yet is set
`active` by the constructor, so "otherwise every quest starts `locked`"
fails on that constructor. -/
theorem constructionPolicy_cex :
    registryQuests.head?.map Quest.trigger = some (some Trigger.phonecall) ∧
    ((construct007 registryQuests).1.head?.map Quest.status) =
      some Status.active := by
  decide

/-- C6 (amended): the *current* constructor follows the claimed policy on
any all-locked registry template: a trigger-free first quest is
immediately activated, and otherwise the copy is untouched, so every
quest starts `locked`. -/
theorem mkQuestManager_policy (q0 : Quest) (rest : List Quest)
    (h : allLocked (q0 :: rest) = true) :
    (q0.trigger = none →
      mkQuestManager (q0 :: rest) = { q0 with status := Status.active } :: rest) ∧
    (q0.trigger ≠ none →
      mkQuestManager (q0 :: rest) = q0 :: rest ∧
        allLocked (mkQuestManager (q0 :: rest)) = true) := by
  constructor
  · intro ht
    simp [mkQuestManager, ht]
  · intro ht
    have hne : q0.trigger.isNone = false := by
      cases hcase : q0.trigger with
      | none => exact absurd hcase ht
      | some t => rfl
    constructor
    · simp [mkQuestManager, hne]
    · simpa [mkQuestManager, hne] using h

/-- Witness for C6 (amended) on the actual registry, whose first quest has
a `phonecall` trigger: construction leaves every quest locked. -/
theorem mkQuestManager_policy_witness :
    mkQuestManager registryQuests = registryQuests ∧
    allLocked (mkQuestManager registryQuests) = true :=
  (mkQuestManager_policy quest1 [quest2, quest3, quest4, quest5]
    (by decide)).2 (by decide)

/-! ## Helper lemmas about the orchestrator -/

theorem completeActiveQuest_gameState (q : Quest) (s : GameS) :
    (completeActiveQuest q s).gameState = GState.SHOWING_SUCCESS := by
  unfold completeActiveQuest
  dsimp only
  split
  · split <;> rfl
  · rfl

theorem updateQuestProgress_of_notPlaying {s : GameS}
    (h : s.gameState ≠ GState.PLAYING) : updateQuestProgress s = s := by
  unfold updateQuestProgress
  rw [if_pos (by simpa using h)]

/-- The per-frame check, seen only through the game state: under cache
coherence it succeeds exactly when the fire point registered under the
*id* of the current quest is strictly within the radius. -/
theorem updateQuestProgress_gameState_eq (s : GameS) (q : Quest)
    (hplay : s.gameState = GState.PLAYING)
    (hq : getCurrentQuest s.quests = some q)
    (hcache : s.cachedQuestId = some q.id →
      s.cachedObjectivePos = s.firePoints q.id) :
    (updateQuestProgress s).gameState =
      (match s.firePoints q.id with
       | none => GState.PLAYING
       | some target =>
         if distSq s.playerPos target < 25 then GState.SHOWING_SUCCESS
         else GState.PLAYING) := by
  unfold updateQuestProgress
  rw [hq]
  have hbne : (s.gameState != GState.PLAYING) = false := by simp [hplay]
  rw [hbne]
  dsimp only
  by_cases hcq : s.cachedQuestId = some q.id
  · have hcond : (s.cachedQuestId != some q.id) = false := by simp [hcq]
    rw [hcond]
    simp only [Bool.false_eq_true, if_false]
    rw [hcache hcq]
    cases hfp : s.firePoints q.id with
    | none => simpa using hplay
    | some target =>
      dsimp only
      split_ifs with hd
      · rw [completeActiveQuest_gameState]
      · simpa using hplay
  · have hcond : (s.cachedQuestId != some q.id) = true := by simp [hcq]
    rw [hcond]
    simp only [if_true]
    cases hfp : s.firePoints q.id with
    | none =>
      simp only [Bool.false_eq_true, if_false]
      simpa using hplay
    | some target =>
      simp only [Bool.false_eq_true, if_false]
      by_cases hd : distSq s.playerPos target < 25
      · rw [if_pos hd, if_pos hd, completeActiveQuest_gameState]
      · rw [if_neg hd, if_neg hd]
        simpa using hplay

/-- A concrete mid-game state: quest 1 is active, its fire point sits at
the origin, and the player stands at (3, 4, 0) — exactly 5 linear units
(squared distance 25) from the target. -/
def sPlaying : GameS :=
  { gameState := GState.PLAYING
    quests := activateQuestById 1 registryQuests
    pendingQuest := none
    playerPos := ⟨3, 4, 0⟩
    firePoints := fun n => if n = 1 then some ⟨0, 0, 0⟩ else none
    cachedQuestId := none
    cachedObjectivePos := none
    visibleFire := none
    ringtonePlaying := false
    phoneModalCaller := none
    lastModal := none
    hudDistSq := none
    timerRunning := true
    isInCutscene := false
    cyclistCameraPresent := false
    cyclistMeshPresent := false
    cinematicQuest := none }

/-- A concrete state in which quest 1 was just introduced by phone call:
the ringtone plays and the phone prompt is up. -/
def sPhone : GameS :=
  { sPlaying with
      gameState := GState.SHOWING_INSTRUCTIONS
      quests := registryQuests
      pendingQuest := some quest1
      ringtonePlaying := true
      phoneModalCaller := some "Βαθιά Φωνή"
      timerRunning := false }

/-! ## Claim theorems: `Game` orchestrator -/

/-- C2: while `PLAYING`, with an active quest whose fire point is known
and the objective-position cache coherent, the per-frame check enters
`SHOWING_SUCCESS` exactly when the squared player–target distance is
strictly below 25 (linear distance strictly below 5); at squared distance
exactly 25 it stays `PLAYING`. -/
theorem successThreshold_strict (s : GameS) (q : Quest) (target : Vec3)
    (hplay : s.gameState = GState.PLAYING)
    (hq : getCurrentQuest s.quests = some q)
    (hT : s.firePoints q.id = some target)
    (hcache : s.cachedQuestId = some q.id →
      s.cachedObjectivePos = s.firePoints q.id) :
    (updateQuestProgress s).gameState =
      (if distSq s.playerPos target < 25 then GState.SHOWING_SUCCESS
       else GState.PLAYING) := by
  rw [updateQuestProgress_gameState_eq s q hplay hq hcache, hT]

set_option maxRecDepth 10000 in
/-- Witness for C2 at the exact threshold: the player stands 5 units from
the target (squared distance 25) and the objective does not complete. -/
theorem successThreshold_strict_witness :
    distSq sPlaying.playerPos ⟨0, 0, 0⟩ = 25 ∧
    (updateQuestProgress sPlaying).gameState = GState.PLAYING := by
  constructor
  · norm_num [distSq, sPlaying]
  · rw [successThreshold_strict sPlaying { quest1 with status := Status.active }
      ⟨0, 0, 0⟩ rfl (by decide) rfl (fun hcon => absurd hcon (by simp [sPlaying]))]
    norm_num [distSq, sPlaying]

/-- C7: once the quest timer expires the time-out modal is shown and the
state becomes `AWAITING_QUEST`; from there, no sequence of per-frame
objective checks — whatever positions the player reaches — ever moves the
game state again, in particular never to `SHOWING_SUCCESS`. -/
theorem timerExpiry_terminal (s : GameS) (hplay : s.gameState = GState.PLAYING)
    (ps : List Vec3) :
    (onQuestTimerExpired s).lastModal =
      some ("Time's Up!", "You ran out of time! Click 'Try Again' to restart.") ∧
    (ps.foldl frameStep (onQuestTimerExpired s)).gameState = GState.AWAITING_QUEST := by
  have key : ∀ (l : List Vec3) (s1 : GameS),
      s1.gameState = GState.AWAITING_QUEST →
      (l.foldl frameStep s1).gameState = GState.AWAITING_QUEST := by
    intro l
    induction l with
    | nil => intro s1 h1; exact h1
    | cons p rest ih =>
      intro s1 h1
      have h2 : frameStep s1 p = { s1 with playerPos := p } := by
        unfold frameStep
        exact updateQuestProgress_of_notPlaying (by simp [h1])
      rw [List.foldl_cons, h2]
      exact ih _ (by simp [h1])
  exact ⟨rfl, key ps (onQuestTimerExpired s) rfl⟩

/-- Witness for C7: timer expiry in the concrete `PLAYING` state, followed
by a frame in which the player stands on the target. -/
theorem timerExpiry_terminal_witness :
    (onQuestTimerExpired sPlaying).lastModal =
      some ("Time's Up!", "You ran out of time! Click 'Try Again' to restart.") ∧
    ([(⟨0, 0, 0⟩ : Vec3)].foldl frameStep (onQuestTimerExpired sPlaying)).gameState =
      GState.AWAITING_QUEST :=
  timerExpiry_terminal sPlaying rfl [⟨0, 0, 0⟩]

/-- C8: for a phone-call quest pending in `SHOWING_INSTRUCTIONS`,
dismissing the phone prompt without answering still shows the riddle
modal and leaves the state in `SHOWING_INSTRUCTIONS` (so the riddle gate
is never skipped), and answering the call stops the ringtone and shows
the same riddle modal. -/
theorem phonecallRiddle_nonSkippable (s : GameS) (q : Quest)
    (htrig : q.trigger = some Trigger.phonecall)
    (hstate : s.gameState = GState.SHOWING_INSTRUCTIONS)
    (hpend : s.pendingQuest = some q) :
    (onPhoneModalClosed s).ringtonePlaying = false ∧
    (onPhoneModalClosed s).lastModal = some (q.caller.getD "Objective", q.riddle) ∧
    (onPhoneModalClosed s).gameState = GState.SHOWING_INSTRUCTIONS ∧
    (onAnswerCall s).ringtonePlaying = false ∧
    (onAnswerCall s).lastModal = some (q.caller.getD "Objective", q.riddle) := by
  unfold onPhoneModalClosed onAnswerCall
  simp [hstate, hpend]

/-- Witness for C8 in the concrete phone-call state for quest 1. -/
theorem phonecallRiddle_nonSkippable_witness :
    (onPhoneModalClosed sPhone).lastModal =
      some (quest1.caller.getD "Objective", quest1.riddle) ∧
    (onAnswerCall sPhone).ringtonePlaying = false :=
  ⟨(phonecallRiddle_nonSkippable sPhone quest1 rfl rfl rfl).2.1,
   (phonecallRiddle_nonSkippable sPhone quest1 rfl rfl rfl).2.2.2.1⟩

/-- A concrete state of the older `game.ts` iteration: quest 1 (id 1,
`correctAnswer` 6) is active, the fire point registered under the quest's
id is 100 units away, the fire point registered under key 6 is at the
player's feet. -/
def sOld : OldGameS :=
  { gameState := OldGState.playing
    quests := activateQuestById 1 registryQuests
    playerPos := ⟨0, 0, 0⟩
    firePoints := fun n =>
      if n = 1 then some ⟨100, 0, 0⟩
      else if n = 6 then some ⟨0, 0, 0⟩
      else none
    lastModal := none
    hudDistSq := none }

set_option maxRecDepth 10000 in
/-- C9 counterexample: in the older `game.ts` the per-frame check
completes the active quest although the fire point stored under the
quest's *id* is 100 units away — the lookup key it actually uses is the
quest's `correctAnswer`, so the target is not resolved by quest id. -/
theorem fireLookup_cex :
    getCurrentQuest sOld.quests = some { quest1 with status := Status.active } ∧
    sOld.firePoints 1 = some ⟨100, 0, 0⟩ ∧
    ¬ distSq sOld.playerPos ⟨100, 0, 0⟩ < 25 ∧
    (updateQuestProgressV1 sOld).gameState = OldGState.in_modal := by
  refine ⟨by decide, rfl, by norm_num [distSq, sOld], ?_⟩
  have hq : getCurrentQuest sOld.quests =
      some { quest1 with status := Status.active } := by decide
  unfold updateQuestProgressV1
  rw [hq]
  norm_num [sOld, distSq, completeActiveQuestV1, quest1]

/-- C9 (amended): the *current* `game.ts` resolves the target by the
active quest's id: the per-frame check succeeds exactly when the fire
point registered under `q.id` is strictly within the radius, and starting
a pending quest shows the fire effect at `q.id`.  (The older iteration
resolves by `correctAnswer` instead — see the counterexample.) -/
theorem fireLookup_byId (s : GameS) (q : Quest)
    (hplay : s.gameState = GState.PLAYING)
    (hq : getCurrentQuest s.quests = some q)
    (hcache : s.cachedQuestId = some q.id →
      s.cachedObjectivePos = s.firePoints q.id) :
    ((updateQuestProgress s).gameState = GState.SHOWING_SUCCESS ↔
      (∃ target, s.firePoints q.id = some target ∧
        distSq s.playerPos target < 25)) ∧
    (handleInstructionsClosed { s with pendingQuest := some q }).visibleFire =
      some q.id := by
  constructor
  · rw [updateQuestProgress_gameState_eq s q hplay hq hcache]
    cases hfp : s.firePoints q.id with
    | none => simp
    | some target =>
      by_cases hd : distSq s.playerPos target < 25
      · simp [hd]
      · simp [hd]
  · rfl

set_option maxRecDepth 10000 in
/-- Witness for C9 (amended) in the concrete `PLAYING` state. -/
theorem fireLookup_byId_witness :
    ((updateQuestProgress sPlaying).gameState = GState.SHOWING_SUCCESS ↔
      (∃ target,
        sPlaying.firePoints ({ quest1 with status := Status.active } : Quest).id =
          some target ∧
        distSq sPlaying.playerPos target < 25)) ∧
    (handleInstructionsClosed
        { sPlaying with
            pendingQuest := some { quest1 with status := Status.active } }).visibleFire =
      some ({ quest1 with status := Status.active } : Quest).id :=
  fireLookup_byId sPlaying { quest1 with status := Status.active } rfl
    (by decide) (fun hcon => absurd hcon (by simp [sPlaying]))

/-! ## Helper lemmas for the between-quests gap (C10) -/

theorem getCurrentQuest_append {A B : List Quest}
    (hA : ∀ q ∈ A, q.status ≠ Status.active) :
    getCurrentQuest (A ++ B) = getCurrentQuest B := by
  induction A with
  | nil => rfl
  | cons q rest ih =>
    rw [List.cons_append, getCurrentQuest_cons_inactive (hA q (by simp))]
    exact ih (fun p hp => hA p (by simp [hp]))

theorem activate_append {A B : List Quest} {i : Nat}
    (hA : ∀ q ∈ A, q.id ≠ i) :
    activateQuestById i (A ++ B) = A ++ activateQuestById i B := by
  induction A with
  | nil => rfl
  | cons q rest ih =>
    rw [List.cons_append, activate_cons_miss (hA q (by simp)),
      ih (fun p hp => hA p (by simp [hp])), List.cons_append]

theorem shape_decomp : ∀ {qs : List Quest} {cur : Quest},
    shape qs = true → getCurrentQuest qs = some cur →
    ∃ C L, qs = C ++ cur :: L ∧
      (∀ q ∈ C, q.status = Status.completed) ∧
      cur.status = Status.active ∧ allLocked L = true := by
  intro qs
  induction qs with
  | nil => intro cur _ h; cases h
  | cons q rest ih =>
    intro cur hs hcur
    cases hq : q.status with
    | active =>
      rw [getCurrentQuest_cons_active hq] at hcur
      injection hcur with hcur
      subst hcur
      rw [shape_cons_uncompleted (by simp [hq])] at hs
      exact ⟨[], rest, by simp, by simp, hq, hs⟩
    | completed =>
      rw [getCurrentQuest_cons_inactive (by simp [hq])] at hcur
      rw [shape_cons_completed hq] at hs
      obtain ⟨C, L, hqs, hC, hcurstat, hL⟩ := ih hs hcur
      refine ⟨q :: C, L, by simp [hqs], ?_, hcurstat, hL⟩
      intro p hp
      rcases List.mem_cons.mp hp with h | h
      · rw [h]; exact hq
      · exact hC p h
    | locked =>
      rw [shape_cons_uncompleted (by simp [hq])] at hs
      rw [getCurrentQuest_cons_inactive (by simp [hq]),
        allLocked_noActive hs] at hcur
      cases hcur

theorem completeFirstActive_append {C : List Quest} {cur : Quest} {L : List Quest}
    (hC : ∀ q ∈ C, q.status = Status.completed)
    (hcur : cur.status = Status.active) :
    completeFirstActive (C ++ cur :: L) =
      C ++ { cur with status := Status.completed } :: L := by
  induction C with
  | nil => simp [completeFirstActive, hcur]
  | cons q rest ih =>
    have hq : q.status = Status.completed := hC q (by simp)
    rw [List.cons_append]
    have hstep : completeFirstActive (q :: (rest ++ cur :: L)) =
        q :: completeFirstActive (rest ++ cur :: L) := by
      simp [completeFirstActive, hq]
    rw [hstep, ih (fun p hp => hC p (by simp [hp])), List.cons_append]

theorem findIdx_append_cons {C : List Quest} {cur : Quest} {L : List Quest} {i : Nat}
    (hC : ∀ q ∈ C, q.id ≠ i) (hcur : cur.id = i) :
    (C ++ cur :: L).findIdx (fun q => q.id == i) = C.length := by
  induction C with
  | nil => simp [List.findIdx_cons, hcur]
  | cons q rest ih =>
    rw [List.cons_append, List.findIdx_cons]
    have hq : (q.id == i) = false := by simp [hC q (by simp)]
    rw [hq]
    simp [ih (fun p hp => hC p (by simp [hp]))]

theorem getElem?_append_cons {C : List Quest} {cur : Quest} {L : List Quest} :
    (C ++ cur :: L)[C.length + 1]? = L[0]? := by
  rw [List.getElem?_append_right (by omega)]
  simp

/-! ## Claim theorem: the between-quests gap -/

/-- C10: from any quest state satisfying the status-shape invariant (with
the registry's distinct ids), when `completeCurrentQuestAndGetNext`
returns a next quest `nq`, then `nq` is still `locked` — the call does not
activate it — `getCurrentQuest` is absent on the resulting state, and it
stays absent until `activateQuestById nq.id` turns `nq` active. -/
theorem completeReturnsInertNext (qs : List Quest) (nq : Quest) (qs2 : List Quest)
    (hshape : shape qs = true)
    (hids : (qs.map Quest.id).Nodup)
    (hrun : completeCurrentQuestAndGetNext qs = (some nq, qs2)) :
    nq.status = Status.locked ∧
    getCurrentQuest qs2 = none ∧
    getCurrentQuest (activateQuestById nq.id qs2) =
      some { nq with status := Status.active } := by
  cases hcur : getCurrentQuest qs with
  | none =>
    unfold completeCurrentQuestAndGetNext at hrun
    rw [hcur] at hrun
    simp at hrun
  | some cur =>
    unfold completeCurrentQuestAndGetNext at hrun
    rw [hcur] at hrun
    dsimp only at hrun
    obtain ⟨C, L, hqs, hC, hcurstat, hL⟩ := shape_decomp hshape hcur
    subst hqs
    have hidsplit : (C.map Quest.id ++ (cur :: L).map Quest.id).Nodup := by
      simpa [List.map_append] using hids
    have hdis := (List.nodup_append.mp hidsplit).2.2
    have hidC : ∀ q ∈ C, q.id ≠ cur.id := by
      intro p hp hpe
      exact hdis (by simpa [hpe] using List.mem_map_of_mem Quest.id hp)
        (by simp)
    rw [completeFirstActive_append hC hcurstat,
      @findIdx_append_cons C { cur with status := Status.completed } L cur.id hidC rfl,
      getElem?_append_cons] at hrun
    simp only [Prod.mk.injEq] at hrun
    obtain ⟨h1, h2⟩ := hrun
    cases L with
    | nil => simp at h1
    | cons nq0 L2 =>
      simp only [List.getElem?_cons_zero, Option.some.injEq] at h1
      subst h1
      subst h2
      rcases allLocked_cons.mp hL with ⟨hnql, hL2⟩
      have hCne : ∀ q ∈ C, q.status ≠ Status.active := by
        intro p hp
        simp [hC p hp]
      have hnqC : ∀ q ∈ C, q.id ≠ nq0.id := by
        intro p hp hpe
        exact hdis (by simpa [hpe] using List.mem_map_of_mem Quest.id hp)
          (by simp)
      have hcurnq : cur.id ≠ nq0.id := by
        have hnd2 : ((cur :: nq0 :: L2).map Quest.id).Nodup :=
          (List.nodup_append.mp hidsplit).2.1
        simp only [List.map_cons, List.nodup_cons] at hnd2
        intro he
        exact hnd2.1 (by simp [he])
      refine ⟨hnql, ?_, ?_⟩
      · rw [getCurrentQuest_append hCne,
          getCurrentQuest_cons_inactive (by simp)]
        exact allLocked_noActive hL
      · rw [activate_append hnqC, activate_cons_miss (by simpa using hcurnq),
          activate_cons_hit_locked rfl hnql,
          getCurrentQuest_append hCne,
          getCurrentQuest_cons_inactive (by simp),
          getCurrentQuest_cons_active (by simp)]

set_option maxRecDepth 20000 in
/-- Witness for C10: activate quest 1 on the fresh registry and complete
it; quest 2 comes back still locked, no quest is active, and activating
quest 2 by its id is what makes it the current quest. -/
theorem completeReturnsInertNext_witness :
    quest2.status = Status.locked ∧
    getCurrentQuest
      (completeCurrentQuestAndGetNext (activateQuestById 1 registryQuests)).2 = none ∧
    getCurrentQuest (activateQuestById quest2.id
      (completeCurrentQuestAndGetNext (activateQuestById 1 registryQuests)).2) =
      some { quest2 with status := Status.active } :=
  completeReturnsInertNext (activateQuestById 1 registryQuests) quest2
    (completeCurrentQuestAndGetNext (activateQuestById 1 registryQuests)).2
    (by decide) (by decide) (by decide)

end FireEsc
